import Mathlib

/-!
Verification of the `go_theory` generator scripts.

The repository consists of Python scripts that write fixed Markdown text to
files.  We give a shallow embedding of the relevant parts: strings stay
strings, paths are decomposed into `/`-separated components, the filesystem
is a finite association of component paths to file contents plus a set of
directories, and fallible Python operations return `Except PyExc`.
-/

/-- The Python exceptions the embedded fragments can raise. -/
inductive PyExc where
  | syntaxError
  | importError
  | fileNotFoundError
  | isADirectoryError
  | fileExistsError
deriving DecidableEq

/-- `str.split(sep)` for a one-character separator, on the character list.
Mirrors Python: splitting the empty string yields `[[]]` (one empty part),
and consecutive separators yield empty parts. -/
def splitChars (sep : Char) : List Char → List (List Char)
  | [] => [[]]
  | c :: cs =>
    if c = sep then [] :: splitChars sep cs
    else
      match splitChars sep cs with
      | [] => [[c]]
      | p :: ps => (c :: p) :: ps

/-- Python `path.split(sep)` on strings (one-character separator). -/
def pySplit (s : String) (sep : Char) : List String :=
  (splitChars sep s.data).map (fun l => String.mk l)

/-- Python list indexing `xs[i]`, including negative indices; `none` models
an `IndexError`. -/
def pyGet {α : Type} (xs : List α) (i : Int) : Option α :=
  let j : Int := if i < 0 then (xs.length : Int) + i else i
  if 0 ≤ j ∧ j < (xs.length : Int) then
    xs.get? j.toNat
  else
    none

/-- Python `s * n` for strings (used for `"=" * 70` banner lines). -/
def pyRepeat (s : String) (n : Nat) : String :=
  (List.replicate n s).foldl (fun a b => a ++ b) ""

/-- Python `s.startswith(p)`. -/
def pyStartsWith (p s : String) : Bool :=
  List.isPrefixOf p.data s.data

/-- One pass of Python `str.replace` on character lists: replaces each
non-overlapping occurrence of `old`, scanning left to right (`old` is never
empty at the call sites modelled here).  The extra `Nat` is fuel for
structural recursion; each step consumes at least one character, so any fuel
at least the list length gives the untruncated result. -/
def replaceList (old rep : List Char) : Nat → List Char → List Char
  | 0, l => l
  | _ + 1, [] => []
  | fuel + 1, c :: cs =>
    if old ≠ [] ∧ old.isPrefixOf (c :: cs) then
      rep ++ replaceList old rep fuel (cs.drop (old.length - 1))
    else
      c :: replaceList old rep fuel cs

/-- Python `s.replace(old, rep)`. -/
def pyReplace (s old rep : String) : String :=
  String.mk (replaceList old.data rep.data s.data.length s.data)

/-- A filesystem state: files (keyed by their `/`-component path, holding
their full content) and the set of existing directories. -/
structure FS where
  files : List (List String × String)
  dirs : List (List String)
deriving DecidableEq

/-- The empty filesystem. -/
def FS.empty : FS := ⟨[], []⟩

/-- Does `p` name an existing file? -/
def FS.isFile (fs : FS) (p : List String) : Bool :=
  fs.files.any (fun e => e.1 == p)

/-- Content of the file at `p`, if any. -/
def FS.fileContent (fs : FS) (p : List String) : Option String :=
  (fs.files.find? (fun e => e.1 == p)).map (fun e => e.2)

/-- Does `p` name an existing directory? -/
def FS.hasDir (fs : FS) (p : List String) : Bool :=
  fs.dirs.contains p

/-- The nonempty prefixes of a component path, shortest first:
the chain of ancestors of `d`, ending with `d` itself. -/
def pathPrefixes (d : List String) : List (List String) :=
  (List.range d.length).map (fun k => d.take (k + 1))

/-- `os.makedirs(d, exist_ok=True)` on a component path.  Python raises
`FileNotFoundError` on `makedirs('')` (empty dirname, `d = []` here); it
raises an `OSError` when some ancestor position is occupied by a regular
file; otherwise it creates every missing directory on the chain. -/
def makedirs (fs : FS) (d : List String) : Except PyExc FS :=
  if d = [] then
    .error .fileNotFoundError
  else if (pathPrefixes d).any fs.isFile then
    .error .fileExistsError
  else
    .ok { fs with
          dirs := (pathPrefixes d).filter (fun q => !(fs.dirs.contains q)) ++ fs.dirs }

/-- `open(p, 'w')` followed by `f.write(c)`: fails when `p` is a directory
or ends in a slash (empty last component), or when the parent directory of
a multi-component `p` does not exist; otherwise replaces the content at
`p`. -/
def writeOpen (fs : FS) (p : List String) (c : String) : Except PyExc FS :=
  if fs.hasDir p then
    .error .isADirectoryError
  else if p.getLast? = some "" then
    .error .isADirectoryError
  else if 2 ≤ p.length ∧ ¬ (fs.hasDir p.dropLast = true) then
    .error .fileNotFoundError
  else
    .ok { fs with files := (p, c) :: fs.files.filter (fun e => e.1 != p) }

/-- The filesystem part shared by the three `write_file` helpers:
`os.makedirs(os.path.dirname(path), exist_ok=True)` followed by
`open(path, 'w').write(content)`.  On a `/`-separated path the components
of `os.path.dirname(path)` are `parts.dropLast`. -/
def write_file_core (fs : FS) (path content : String) : Except PyExc FS := do
  let parts := pySplit path '/'
  let fs1 ← makedirs fs parts.dropLast
  writeOpen fs1 parts content

/-- `write_file` of CREATE_FULL_THEORY.py: core write, then
`print(f"Created: {path}")`. -/
def write_file_CFT (fs : FS) (path content : String) :
    Except PyExc (FS × List String) :=
  (write_file_core fs path content).map (fun fs2 => (fs2, ["Created: " ++ path]))

/-- The guarded progress fields of FINAL_GENERATOR.py's `write_file`:
`parts = path.split('/')`, `topic = parts[-3] if len(parts) >= 3 else ''`,
`level = parts[-2] if len(parts) >= 2 else ''`.  Returns `none` exactly when
one of the performed list accesses would raise `IndexError`. -/
def progressPartsFG (path : String) : Option (String × String) := do
  let parts := pySplit path '/'
  let topic ← if 3 ≤ parts.length then pyGet parts (-3) else pure ""
  let level ← if 2 ≤ parts.length then pyGet parts (-2) else pure ""
  pure (topic, level)

/-- The progress message printed by FINAL_GENERATOR.py's `write_file`. -/
def progressMsgFG (path : String) : String :=
  match progressPartsFG path with
  | some (topic, level) => "  ✓ " ++ topic ++ "/" ++ level
  | none => ""

/-- `write_file` of FINAL_GENERATOR.py: core write, then the
`"  ✓ topic/level"` progress print. -/
def write_file_FG (fs : FS) (path content : String) :
    Except PyExc (FS × List String) :=
  (write_file_core fs path content).map (fun fs2 => (fs2, [progressMsgFG path]))

/-- `write_file` of GENERATE_ALL_THEORIES.py: core write, then
`rel_path = path.replace(os.getcwd() + '/', '')` and `print(f"  ✓ {rel_path}")`.
Takes the current working directory as a parameter. -/
def write_file_GAT (cwd : String) (fs : FS) (path content : String) :
    Except PyExc (FS × List String) :=
  (write_file_core fs path content).map
    (fun fs2 => (fs2, ["  ✓ " ++ pyReplace path (cwd ++ "/") ""]))

deriving instance DecidableEq for Except

/-- The `TOPIC_01_BASIC` string constant of CREATE_FULL_THEORY.py. -/
def TOPIC_01_BASIC : String :=
  String.intercalate "\n" [
    "# Go Basics and Syntax - Basic Level",
    "",
    "[Previous comprehensive content from THEORY_CONTENT[\"01_basics_and_syntax\"][\"basic\"]]",
    ""
  ]

/-- The `TOPIC_02_BASIC` string constant of CREATE_FULL_THEORY.py: the full Markdown theory text for topic 02, basic level. -/
def TOPIC_02_BASIC : String :=
  String.intercalate "\n" [
    "# Data Types and Variables - Basic Level",
    "",
    "## Overview",
    "",
    "Go has a simpler type system than C/C++ by design. While C/C++ evolved over decades accumulating features, Go was designed from scratch with modern software engineering in mind.",
    "",
    "## Basic Types Comparison",
    "",
    "### Integer Types",
    "",
    "**C/C++:**",
    "\x60\x60\x60cpp",
    "char c;           // Usually 8 bits, but not guaranteed",
    "short s;          // At least 16 bits",
    "int i;            // At least 16 bits (usually 32)",
    "long l;           // At least 32 bits",
    "long long ll;     // At least 64 bits (C++11)",
    "",
    "// Size depends on platform!",
    "sizeof(int);      // Could be 2, 4, or 8 bytes",
    "\x60\x60\x60",
    "",
    "**Go:**",
    "\x60\x60\x60go",
    "var i8  int8      // Exactly 8 bits, always",
    "var i16 int16     // Exactly 16 bits, always",
    "var i32 int32     // Exactly 32 bits, always",
    "var i64 int64     // Exactly 64 bits, always",
    "",
    "var u8  uint8     // Unsigned 8 bits",
    "var u16 uint16    // Unsigned 16 bits",
    "var u32 uint32    // Unsigned 32 bits",
    "var u64 uint64    // Unsigned 64 bits",
    "",
    "var i int         // Platform dependent (32 or 64 bit)",
    "var u uint        // Platform dependent unsigned",
    "\x60\x60\x60",
    "",
    "### Design Rationale: Fixed-Size Integers",
    "",
    "**Why Go specifies exact sizes:**",
    "",
    "1. **Portability**: Code behaves identically on all platforms",
    "\x60\x60\x60cpp",
    "// C++ problem:",
    "int x = 2147483647;  // Max 32-bit int",
    "x++;                  // Overflow behavior undefined!",
    "// On some platforms: wraps to negative",
    "// On others: might trap",
    "// Optimizers assume it never happens!",
    "\x60\x60\x60",
    "",
    "\x60\x60\x60go",
    "// Go solution:",
    "var x int32 = 2147483647",
    "x++  // Defined behavior: wraps to -2147483648",
    "// Same on all platforms",
    "\x60\x60\x60",
    "",
    "2. **Binary protocols**: Network/file formats need exact sizes",
    "\x60\x60\x60go",
    "// Writing binary data:",
    "var header struct \x7b",
    "    Magic   uint32  // Always 4 bytes",
    "    Version uint16  // Always 2 bytes",
    "    Flags   uint8   // Always 1 byte",
    "\x7d",
    "// Total: 7 bytes on ALL platforms",
    "\x60\x60\x60",
    "",
    "3. **Memory layout**: Predictable struct sizes",
    "\x60\x60\x60go",
    "type Point struct \x7b",
    "    X int32  // 4 bytes",
    "    Y int32  // 4 bytes",
    "\x7d",
    "// Always 8 bytes (plus padding)",
    "\x60\x60\x60",
    "",
    "**When to use int vs int32:**",
    "- \x60int\x60: For counts, indices, general arithmetic (idiomatic)",
    "- \x60int32\x60/\x60int64\x60: When size matters (binary formats, APIs)",
    "",
    "### Floating Point Types",
    "",
    "**C/C++:**",
    "\x60\x60\x60cpp",
    "float f;         // Usually 32 bits (not guaranteed)",
    "double d;        // Usually 64 bits (not guaranteed)",
    "long double ld;  // Platform dependent (64, 80, or 128 bits!)",
    "\x60\x60\x60",
    "",
    "**Go:**",
    "\x60\x60\x60go",
    "var f32 float32  // IEEE-754 32-bit, always",
    "var f64 float64  // IEEE-754 64-bit, always",
    "",
    "// No long double - float64 is sufficient",
    "\x60\x60\x60",
    "",
    "### Design Rationale: No Long Double",
    "",
    "**Why Go omitted long double:**",
    "",
    "1. **Simplicity**: Two float types are enough",
    "2. **Platform consistency**: long double varies wildly",
    "3. **Sufficient precision**: float64 has 15-17 decimal digits",
    "4. **Use math/big for arbitrary precision** if needed",
    "",
    "\x60\x60\x60go",
    "import \"math/big\"",
    "",
    "// For arbitrary precision:",
    "f := new(big.Float)",
    "f.SetPrec(1000)  // 1000 bits of precision",
    "\x60\x60\x60",
    "",
    "### Complex Numbers",
    "",
    "**C/C++:**",
    "\x60\x60\x60cpp",
    "#include <complex>",
    "",
    "std::complex<float> c1(1.0f, 2.0f);",
    "std::complex<double> c2(1.0, 2.0);",
    "",
    "// Or in C:",
    "float complex c1 = 1.0f + 2.0f * I;",
    "\x60\x60\x60",
    "",
    "**Go:**",
    "\x60\x60\x60go",
    "var c64  complex64   // Two float32s",
    "var c128 complex128  // Two float64s",
    "",
    "c := 1 + 2i          // complex128 literal",
    "c = complex(1, 2)    // Explicit construction",
    "",
    "real := real(c)      // Extract real part",
    "imag := imag(c)      // Extract imaginary part",
    "\x60\x60\x60",
    "",
    "### Design Rationale: Built-in Complex Numbers",
    "",
    "**Why Go has first-class complex numbers:**",
    "",
    "1. **Scientific computing**: Common in signal processing, quantum computing",
    "2. **No library needed**: Part of the language",
    "3. **Optimizable**: Compiler can optimize complex arithmetic",
    "4. **Type safe**: complex64 and complex128 are distinct types",
    "",
    "**Example: FFT implementation is cleaner:**",
    "\x60\x60\x60go",
    "// Go:",
    "func FFT(x []complex128) []complex128 \x7b",
    "    // Direct complex arithmetic",
    "    w := complex(math.Cos(angle), math.Sin(angle))",
    "    return result * w",
    "\x7d",
    "\x60\x60\x60",
    "",
    "\x60\x60\x60cpp",
    "// C++:",
    "std::vector<std::complex<double>> FFT(const std::vector<std::complex<double>>& x) \x7b",
    "    // More verbose, same functionality",
    "\x7d",
    "\x60\x60\x60",
    "",
    "### Boolean Type",
    "",
    "**C/C++:**",
    "\x60\x60\x60cpp",
    "// C:",
    "int flag = 1;        // 0 is false, non-zero is true",
    "if (flag) \x7b \x7d        // Any integer can be condition",
    "",
    "// C++:",
    "bool flag = true;    // Dedicated bool type",
    "if (5) \x7b \x7d           // But still: int converts to bool!",
    "\x60\x60\x60",
    "",
    "**Go:**",
    "\x60\x60\x60go",
    "var flag bool = true  // Only true or false",
    "",
    "// if 5 \x7b \x7d           // Compile error!",
    "if x != 0 \x7b \x7d         // Must explicitly compare",
    "\x60\x60\x60",
    "",
    "### Design Rationale: Strict Boolean",
    "",
    "**Why Go\x27s bool is not numeric:**",
    "",
    "1. **Clarity**: Conditions are explicit",
    "2. **Safety**: No accidental bool/int confusion",
    "3. **No implicit conversions**: Must be explicit",
    "",
    "**Common C/C++ bugs Go prevents:**",
    "\x60\x60\x60cpp",
    "// C++:",
    "if (x = 5) \x7b  // Assignment, not comparison!",
    "    // Always true, bug!",
    "\x7d",
    "",
    "bool b = 5;   // Implicitly converts to true",
    "\x60\x60\x60",
    "",
    "\x60\x60\x60go",
    "// Go:",
    "if x = 5 \x7b    // Compile error: x = 5 is not boolean",
    "\x7d",
    "",
    "// var b bool = 5  // Compile error: cannot convert",
    "var b bool = (x == 5)  // Must be explicit",
    "\x60\x60\x60",
    "",
    "### String Type",
    "",
    "**C/C++:**",
    "\x60\x60\x60cpp",
    "// C:",
    "char* str = \"hello\";           // Pointer to char array",
    "char str2[] = \"hello\";         // Char array",
    "size_t len = strlen(str);      // O(n) operation",
    "",
    "// C++:",
    "std::string str = \"hello\";     // Class type",
    "size_t len = str.length();     // O(1) operation",
    "str[0] = \x27H\x27;                  // Mutable",
    "\x60\x60\x60",
    "",
    "**Go:**",
    "\x60\x60\x60go",
    "var str string = \"hello\"       // Built-in type",
    "len := len(str)                // O(1) operation",
    "// str[0] = \x27H\x27                // Compile error: immutable!",
    "",
    "// Strings are immutable byte slices",
    "bytes := []byte(str)           // Convert to mutable bytes",
    "bytes[0] = \x27H\x27",
    "str = string(bytes)            // Convert back",
    "\x60\x60\x60",
    "",
    "### Design Rationale: Immutable Strings",
    "",
    "**Why Go strings are immutable:**",
    "",
    "1. **Thread safety**: Can share strings between goroutines safely",
    "\x60\x60\x60go",
    "var global string = \"shared\"",
    "",
    "go func() \x7b",
    "    fmt.Println(global)  // Safe, no mutex needed",
    "\x7d()",
    "\x60\x60\x60",
    "",
    "2. **Memory efficiency**: Can share underlying storage",
    "\x60\x60\x60go",
    "s1 := \"hello world\"",
    "s2 := s1[0:5]  // \"hello\" - shares memory with s1",
    "// No copy until modification",
    "\x60\x60\x60",
    "",
    "3. **Hash table keys**: Strings can\x27t change after hashing",
    "\x60\x60\x60go",
    "m := map[string]int\x7b\x7d",
    "key := \"hello\"",
    "m[key] = 42",
    "// key can\x27t change, so map stays consistent",
    "\x60\x60\x60",
    "",
    "4. **Security**: String data can\x27t be modified after validation",
    "\x60\x60\x60go",
    "func ValidateAndUse(password string) \x7b",
    "    if isValid(password) \x7b",
    "        // password can\x27t change here",
    "        use(password)",
    "    \x7d",
    "\x7d",
    "\x60\x60\x60",
    "",
    "**How to modify strings efficiently:**",
    "\x60\x60\x60go",
    "import \"strings\"",
    "",
    "// For many concatenations:",
    "var builder strings.Builder",
    "builder.WriteString(\"hello\")",
    "builder.WriteString(\" \")",
    "builder.WriteString(\"world\")",
    "result := builder.String()",
    "",
    "// For single modification:",
    "s := \"hello\"",
    "s = s + \" world\"  // Creates new string",
    "\x60\x60\x60",
    "",
    "## Variable Declaration",
    "",
    "### C/C++ Declaration Styles",
    "",
    "\x60\x60\x60cpp",
    "int x;                    // Uninitialized (undefined value!)",
    "int y = 42;              // Initialized",
    "int z(42);               // C++ constructor syntax",
    "auto a = 42;             // C++11 type inference",
    "",
    "int* p1;                 // Pointer",
    "int *p2;                 // Alternative style",
    "int* p1, p2;             // p1 is pointer, p2 is int (gotcha!)",
    "\x60\x60\x60",
    "",
    "### Go Declaration Styles",
    "",
    "\x60\x60\x60go",
    "var x int                // Zero-initialized (0)",
    "var y int = 42          // Explicit type and value",
    "var z = 42              // Type inference (int)",
    "w := 42                 // Short declaration",
    "",
    "var p1 *int             // Pointer (nil)",
    "var p2, p3 *int         // Both pointers (consistent)",
    "\x60\x60\x60",
    "",
    "### Design Rationale: Multiple Declaration Styles",
    "",
    "**Why Go has three ways to declare variables:**",
    "",
    "1. **var x Type**: When zero value is wanted",
    "\x60\x60\x60go",
    "var count int      // Start at 0",
    "var buffer [1024]byte  // All zeros",
    "\x60\x60\x60",
    "",
    "2. **var x = value**: When type should be explicit",
    "\x60\x60\x60go",
    "var timeout = time.Second * 30  // Type is time.Duration",
    "var pi = 3.14                   // Type is float64",
    "\x60\x60\x60",
    "",
    "3. **x := value**: For local variables (most common)",
    "\x60\x60\x60go",
    "func process() \x7b",
    "    result := compute()  // Type inferred",
    "    // Short and clear",
    "\x7d",
    "\x60\x60\x60",
    "",
    "**Where each style is used:**",
    "",
    "\x60\x60\x60go",
    "// Package level: must use var",
    "var globalConfig Config",
    "",
    "// Function level: prefer :=",
    "func example() \x7b",
    "    x := 42  // Idiomatic",
    "    ",
    "    // Use var when:",
    "    var y int  // Zero value wanted",
    "    var z float64 = 3.14  // Type should be explicit",
    "\x7d",
    "\x60\x60\x60",
    "",
    "### Short Variable Declaration",
    "",
    "**The := operator:**",
    "",
    "\x60\x60\x60go",
    "x := 42              // Create new variable x",
    "y := \"hello\"         // Create new variable y",
    "",
    "// Multiple assignment:",
    "a, b := 1, 2",
    "name, age := \"Alice\", 30",
    "",
    "// With function returns:",
    "value, err := functionReturningTwo()",
    "\x60\x60\x60",
    "",
    "**Rules for :=:**",
    "1. Only in function bodies (not package level)",
    "2. At least one new variable must be declared",
    "3. Can redeclare existing variables in multi-assignment",
    "",
    "\x60\x60\x60go",
    "var x int",
    "x := 42  // Error: x already declared",
    "",
    "var x int",
    "x, y := 42, 43  // OK: y is new, x is just assigned",
    "\x60\x60\x60",
    "",
    "### Design Rationale: Short Declaration",
    "",
    "**Why := exists:**",
    "",
    "1. **Conciseness**: Most common case should be shortest",
    "\x60\x60\x60go",
    "// Go:",
    "x := 42",
    "",
    "// C++:",
    "auto x = 42;  // Similar, but Go is one character shorter",
    "\x60\x60\x60",
    "",
    "2. **Clear scope**: Obviously a new variable",
    "\x60\x60\x60go",
    "if x := compute(); x > 0 \x7b",
    "    // x only exists in if block",
    "\x7d",
    "// x doesn\x27t exist here",
    "\x60\x60\x60",
    "",
    "3. **Error handling pattern**:",
    "\x60\x60\x60go",
    "if err := doSomething(); err != nil \x7b",
    "    return err",
    "\x7d",
    "// err doesn\x27t leak to outer scope",
    "\x60\x60\x60",
    "",
    "### Multiple Assignment",
    "",
    "**C/C++:**",
    "\x60\x60\x60cpp",
    "int a, b;",
    "a = b = 42;  // Right associative: b = 42, then a = b",
    "",
    "// Can\x27t do:",
    "a, b = getValue1(), getValue2();  // Error",
    "\x60\x60\x60",
    "",
    "**Go:**",
    "\x60\x60\x60go",
    "a, b := 1, 2  // Parallel assignment",
    "",
    "// Swap without temp variable:",
    "a, b = b, a",
    "",
    "// Common pattern with functions:",
    "value, err := mayFail()",
    "if err != nil \x7b",
    "    // Handle error",
    "\x7d",
    "\x60\x60\x60",
    "",
    "### Design Rationale: Parallel Assignment",
    "",
    "**Why Go supports parallel assignment:**",
    "",
    "1. **Multiple return values** are common:",
    "\x60\x60\x60go",
    "func divmod(a, b int) (int, int) \x7b",
    "    return a / b, a % b",
    "\x7d",
    "",
    "quot, rem := divmod(17, 5)",
    "\x60\x60\x60",
    "",
    "2. **No temporary variables needed**:",
    "\x60\x60\x60go",
    "// Swap:",
    "a, b = b, a  // Clean and clear",
    "",
    "// vs C++:",
    "std::swap(a, b);  // Need library function",
    "// or:",
    "int temp = a; a = b; b = temp;  // Verbose",
    "\x60\x60\x60",
    "",
    "3. **Error handling**:",
    "\x60\x60\x60go",
    "// Idiomatic Go:",
    "if result, err := f(); err == nil \x7b",
    "    use(result)",
    "\x7d",
    "\x60\x60\x60",
    "",
    "## Zero Values",
    "",
    "### Zero Value Table",
    "",
    "| Type | Zero Value |",
    "|------|-----------|",
    "| \x60int\x60, \x60int8\x60, \x60int16\x60, \x60int32\x60, \x60int64\x60 | \x600\x60 |",
    "| \x60uint\x60, \x60uint8\x60, \x60uint16\x60, \x60uint32\x60, \x60uint64\x60 | \x600\x60 |",
    "| \x60float32\x60, \x60float64\x60 | \x600.0\x60 |",
    "| \x60complex64\x60, \x60complex128\x60 | \x60(0+0i)\x60 |",
    "| \x60bool\x60 | \x60false\x60 |",
    "| \x60string\x60 | \x60\"\"\x60 (empty string) |",
    "| pointers | \x60nil\x60 |",
    "| slices | \x60nil\x60 (length 0, capacity 0) |",
    "| maps | \x60nil\x60 (no allocation) |",
    "| channels | \x60nil\x60 |",
    "| interfaces | \x60nil\x60 |",
    "| functions | \x60nil\x60 |",
    "",
    "### Design Rationale: Zero Values",
    "",
    "**Why zero values matter:**",
    "",
    "1. **No undefined behavior**:",
    "\x60\x60\x60cpp",
    "// C++:",
    "int x;  // Undefined!",
    "if (x > 0) \x7b  // Undefined behavior",
    "\x7d",
    "\x60\x60\x60",
    "",
    "\x60\x60\x60go",
    "// Go:",
    "var x int  // Always 0",
    "if x > 0 \x7b  // Well-defined: false",
    "\x7d",
    "\x60\x60\x60",
    "",
    "2. **Useful defaults**:",
    "\x60\x60\x60go",
    "type Counter struct \x7b",
    "    count int  // Starts at 0 automatically",
    "\x7d",
    "",
    "c := Counter\x7b\x7d  // No constructor needed",
    "c.count++       // Now 1",
    "\x60\x60\x60",
    "",
    "3. **Safe nil checking**:",
    "\x60\x60\x60go",
    "var slice []int  // nil slice",
    "len(slice)       // 0 (safe!)",
    "slice = append(slice, 1)  // Works!",
    "",
    "// vs C++:",
    "std::vector<int>* vec;  // Uninitialized pointer",
    "vec->size();  // CRASH!",
    "\x60\x60\x60",
    "",
    "4. **Simplifies code**:",
    "\x60\x60\x60go",
    "// No need for explicit initialization:",
    "var buffer bytes.Buffer",
    "buffer.WriteString(\"hello\")  // Just works",
    "",
    "// vs C++:",
    "std::stringstream buffer;  // Must construct",
    "buffer << \"hello\";",
    "\x60\x60\x60",
    "",
    "## Type Inference",
    "",
    "### Go\x27s Type Inference",
    "",
    "\x60\x60\x60go",
    "// Infers int:",
    "x := 42",
    "",
    "// Infers float64:",
    "y := 3.14",
    "",
    "// Infers string:",
    "s := \"hello\"",
    "",
    "// Infers from function:",
    "result := compute()  // Type of compute()\x27s return",
    "",
    "// Infers complex128:",
    "c := 1 + 2i",
    "\x60\x60\x60",
    "",
    "**Rules:**",
    "- Untyped int literal → \x60int\x60",
    "- Untyped float literal → \x60float64\x60",
    "- Untyped complex literal → \x60complex128\x60",
    "- Untyped string literal → \x60string\x60",
    "",
    "### Controlling Inferred Type",
    "",
    "\x60\x60\x60go",
    "// Want int32, not int:",
    "var x int32 = 42",
    "",
    "// Want float32, not float64:",
    "var f float32 = 3.14",
    "",
    "// Explicit conversion:",
    "x := int32(42)",
    "f := float32(3.14)",
    "\x60\x60\x60",
    "",
    "## Type Conversion",
    "",
    "### Go\x27s Explicit Conversions",
    "",
    "\x60\x60\x60go",
    "var i int = 42",
    "var f float64 = float64(i)  // Must convert",
    "",
    "var x int32 = 100",
    "var y int64 = int64(x)  // Even between int types!",
    "",
    "// Truncation is explicit:",
    "var f64 float64 = 3.14",
    "var i int = int(f64)  // i = 3, explicit truncation",
    "\x60\x60\x60",
    "",
    "### Design Rationale: Explicit Conversions",
    "",
    "**Why Go requires explicit conversions:**",
    "",
    "1. **No surprises**:",
    "\x60\x60\x60cpp",
    "// C++:",
    "unsigned u = 10;",
    "int i = -5;",
    "if (u < i) \x7b  // Always false! i converted to unsigned",
    "    // Surprise behavior",
    "\x7d",
    "\x60\x60\x60",
    "",
    "\x60\x60\x60go",
    "// Go:",
    "var u uint = 10",
    "var i int = -5",
    "// if u < i \x7b  // Compile error",
    "if int(u) < i \x7b  // Explicit: you know what happens",
    "\x7d",
    "\x60\x60\x60",
    "",
    "2. **Prevents bugs**:",
    "\x60\x60\x60cpp",
    "// C++:",
    "double d = 3.14159;",
    "int i = d;  // Silent truncation, data loss",
    "\x60\x60\x60",
    "",
    "\x60\x60\x60go",
    "// Go:",
    "var d float64 = 3.14159",
    "var i int = int(d)  // Explicit: \"I know I\x27m losing precision\"",
    "\x60\x60\x60",
    "",
    "3. **Cross-platform consistency**:",
    "\x60\x60\x60go",
    "var i32 int32 = 42",
    "var i64 int64 = int64(i32)  // Same on all platforms",
    "",
    "// C++ int size varies by platform",
    "\x60\x60\x60",
    "",
    "## String Internals",
    "",
    "### How Strings Work",
    "",
    "\x60\x60\x60go",
    "type stringStruct struct \x7b",
    "    ptr *byte  // Pointer to data",
    "    len int    // Length in bytes",
    "\x7d",
    "\x60\x60\x60",
    "",
    "**String slicing:**",
    "\x60\x60\x60go",
    "s := \"hello world\"",
    "sub := s[0:5]  // \"hello\"",
    "",
    "// sub shares memory with s:",
    "// sub.ptr points into s\x27s data",
    "// No copying!",
    "\x60\x60\x60",
    "",
    "### Strings vs Byte Slices",
    "",
    "\x60\x60\x60go",
    "s := \"hello\"",
    "",
    "// Convert to bytes (copies data):",
    "b := []byte(s)",
    "b[0] = \x27H\x27  // Modify byte slice",
    "",
    "// Convert back (copies data):",
    "s2 := string(b)  // \"Hello\"",
    "",
    "// Original unchanged:",
    "fmt.Println(s)  // \"hello\"",
    "\x60\x60\x60",
    "",
    "### UTF-8 Encoding",
    "",
    "**Go strings are UTF-8 byte sequences:**",
    "",
    "\x60\x60\x60go",
    "s := \"Hello, 世界\"",
    "",
    "// Length in bytes:",
    "len(s)  // 13 (not 9!)",
    "",
    "// Iterate bytes:",
    "for i := 0; i < len(s); i++ \x7b",
    "    fmt.Printf(\"%x \", s[i])",
    "\x7d",
    "",
    "// Iterate runes (Unicode code points):",
    "for i, r := range s \x7b",
    "    fmt.Printf(\"%d: %c",
    "\", i, r)",
    "\x7d",
    "\x60\x60\x60",
    "",
    "### Design Rationale: UTF-8",
    "",
    "**Why Go chose UTF-8:**",
    "",
    "1. **ASCII compatible**: ASCII strings work unchanged",
    "2. **Space efficient**: Common chars use 1 byte",
    "3. **Self-synchronizing**: Can find character boundaries",
    "4. **No BOM needed**: Clear encoding",
    "",
    "**vs C++:**",
    "\x60\x60\x60cpp",
    "// C++:",
    "std::string s = \"hello\";     // Bytes",
    "std::wstring ws = L\"hello\";  // Wide chars (16 or 32 bit)",
    "std::u16string u16 = u\"hello\";  // UTF-16",
    "std::u32string u32 = U\"hello\";  // UTF-32",
    "",
    "// Go: Just one string type, always UTF-8",
    "\x60\x60\x60",
    "",
    "## Summary",
    "",
    "**Key differences from C/C++:**",
    "",
    "1. **Exact-size types**: int8/int16/int32/int64 always same size",
    "2. **Zero values**: Everything initialized automatically",
    "3. **Explicit conversions**: No implicit type conversions",
    "4. **Immutable strings**: Thread-safe by default",
    "5. **Built-in complex numbers**: First-class support",
    "6. **Strict booleans**: No bool/int conversions",
    "7. **UTF-8 strings**: Unicode by default",
    "",
    "**Design philosophy:**",
    "- **Safety over convenience**: Catch errors at compile time",
    "- **Simplicity over features**: Fewer types, clearer code",
    "- **Predictability**: Same behavior on all platforms",
    "- **Modern defaults**: UTF-8, garbage collection, zero initialization",
    "",
    "Next: Operators and expressions with Go\x27s design choices explained.",
    ""
  ]

/-- The `TOPIC_02_BASIC_EXAMPLE` string constant of CREATE_FULL_THEORY.py: the Go example file for topic 02, basic level. -/
def TOPIC_02_BASIC_EXAMPLE : String :=
  String.intercalate "\n" [
    "package main",
    "",
    "import \"fmt\"",
    "",
    "func main() \x7b",
    "    // Integer types",
    "    var i8 int8 = 127",
    "    var i16 int16 = 32767",
    "    var i32 int32 = 2147483647",
    "    var i64 int64 = 9223372036854775807",
    "    ",
    "    fmt.Printf(\"int8:  %d\\n\", i8)",
    "    fmt.Printf(\"int16: %d\\n\", i16)",
    "    fmt.Printf(\"int32: %d\\n\", i32)",
    "    fmt.Printf(\"int64: %d\\n\", i64)",
    "    ",
    "    // Zero values",
    "    var zeroInt int",
    "    var zeroFloat float64",
    "    var zeroString string",
    "    var zeroBool bool",
    "    ",
    "    fmt.Printf(\"\\nZero values:\\n\")",
    "    fmt.Printf(\"int:     %d\\n\", zeroInt)",
    "    fmt.Printf(\"float64: %f\\n\", zeroFloat)",
    "    fmt.Printf(\"string:  \x27%s\x27\\n\", zeroString)",
    "    fmt.Printf(\"bool:    %t\\n\", zeroBool)",
    "    ",
    "    // Type inference",
    "    x := 42",
    "    y := 3.14",
    "    s := \"hello\"",
    "    ",
    "    fmt.Printf(\"\\nInferred types:\\n\")",
    "    fmt.Printf(\"x: %T\\n\", x)",
    "    fmt.Printf(\"y: %T\\n\", y)",
    "    fmt.Printf(\"s: %T\\n\", s)",
    "\x7d",
    ""
  ]

/-- `BASE_PATH` of CREATE_FULL_THEORY.py. -/
def BASE_PATH : String := "/media/usb/anrai/golang/go_theory"

/-- The module-level driver of CREATE_FULL_THEORY.py: prints a progress line,
writes `TOPIC_02_BASIC` to `BASE_PATH/02_data_types_and_variables/basic/theory.md`,
writes `TOPIC_02_BASIC_EXAMPLE` to the sibling `basic/examples/types.go`, and
prints three closing lines (the first contains a literal backslash-n: the
source string is not a raw newline). -/
def CREATE_FULL_THEORY_run (fs : FS) : Except PyExc (FS × List String) := do
  let r1 ← write_file_CFT fs
    (BASE_PATH ++ "/02_data_types_and_variables/basic/theory.md") TOPIC_02_BASIC
  let r2 ← write_file_CFT r1.1
    (BASE_PATH ++ "/02_data_types_and_variables/basic/examples/types.go")
    TOPIC_02_BASIC_EXAMPLE
  .ok (r2.1,
    ["Generating Topic 02: Data Types and Variables..."] ++ r1.2 ++ r2.2 ++
    ["\\nTheory generation would continue for all 20 topics...",
     "Each with comprehensive C/C++ comparisons and design rationale.",
     "Total would be ~100,000+ lines of detailed theory."])

/-- The final state of a script process: normal exit with a status code, or
termination by an uncaught exception. -/
inductive Outcome where
  | exited (code : Nat)
  | uncaught (e : PyExc)
deriving DecidableEq

/-- Running a module as a script with no exception handler installed: a
raised exception propagates and the process dies with it. -/
def scriptOutcome (r : Except PyExc (FS × List String)) : Outcome :=
  match r with
  | .ok _ => .exited 0
  | .error e => .uncaught e

/-- CREATE_FULL_THEORY.py run as a script: no handler anywhere in the file,
so `scriptOutcome` applies directly. -/
def CREATE_FULL_THEORY_script (fs : FS) : Outcome :=
  scriptOutcome (CREATE_FULL_THEORY_run fs)

/-- Module-level execution of GENERATE_ALL_THEORIES.py: it defines
`write_file` and `total_files = 0` but never calls the writer; the only
observable effect is five printed strings. -/
def GENERATE_ALL_THEORIES_run (fs : FS) : FS × List String :=
  (fs,
   ["\n" ++ pyRepeat "=" 70,
    "  GO LANGUAGE THEORY GENERATOR",
    "  Comprehensive learning materials with C/C++ comparisons",
    pyRepeat "=" 70 ++ "\n",
    "Generating detailed theory files for all 20 topics...\n"])

/-- The `levels` list (`['basic', 'intermediate', 'advanced']`), as used by
generate_all_theory_files.py and FINAL_GENERATOR.py. -/
def levels : List String := ["basic", "intermediate", "advanced"]

/-- Module-level execution of generate_all_theory_files.py: it defines
`create_file` but never calls it; the filesystem is untouched and the only
effect is the printed text (with `total = topics_count * len(levels)`). -/
def generate_all_theory_files_run (fs : FS) : FS × List String :=
  let topics_count : Nat := 20
  let total : Nat := topics_count * levels.length
  (fs,
   [pyRepeat "=" 60,
    "Go Theory Generator - Creating comprehensive learning materials",
    pyRepeat "=" 60,
    "\nGenerating theory files... This will take a moment.\n",
    "Total theory files to create: " ++ toString total,
    "Topics: " ++ toString topics_count,
    "Levels per topic: " ++ toString levels.length,
    "\nTo generate all files, this script will create detailed content with:",
    "- C/C++ comparisons for each concept",
    "- Design rationale explanations",
    "- Code examples",
    "- Performance implications",
    "- Best practices",
    "\nNOTE: Due to the extensive content, I recommend running topic-specific",
    "generation scripts. Would you like to proceed with batch generation?"])

/-- Observable steps of FINAL_GENERATOR.py: a printed line, or the single
call into `generate_all_content.generate_all_theories` (a sibling module that
is not part of this repository). -/
inductive Item where
  | msg (s : String)
  | callGenerateAllTheories
deriving DecidableEq

/-- Python `f"{i:02d}"` for the topic numbers used here (all below 100). -/
def pad2 (i : Nat) : String := if i < 10 then "0" ++ toString i else toString i

/-- The inner `for topic_dir in os.listdir('.')` loop of FINAL_GENERATOR.main
for one (topic number, level) pair: on the first entry that starts with the
zero-padded prefix and whose `level/theory.md` exists it contributes 1 and
breaks; otherwise it keeps scanning and contributes 0. -/
def innerScan (ex : String → Bool) (i : Nat) (level : String) :
    List String → Nat
  | [] => 0
  | d :: ds =>
    if pyStartsWith (pad2 i ++ "_") d then
      (if ex (d ++ "/" ++ level ++ "/theory.md") then 1 else innerScan ex i level ds)
    else innerScan ex i level ds

/-- The `existing` count of FINAL_GENERATOR.main: topic numbers 1..20 times
the three levels, accumulating the inner directory scan. -/
def countExisting (entries : List String) (ex : String → Bool) : Nat :=
  ((List.range 20).map (fun k => k + 1)).foldl
    (fun acc i => levels.foldl (fun acc2 lv => acc2 + innerScan ex i lv entries) acc) 0

/-- Modelled from the claim's wording (refinement reference for the code's
`existing` count): the number of (topic number, level) pairs such that some
directory entry with the zero-padded prefix contains `level/theory.md`. -/
def specExistingPairs (entries : List String) (ex : String → Bool) : Nat :=
  (((List.range 20).map (fun k => k + 1)).product levels).countP
    (fun p => entries.any (fun d =>
      pyStartsWith (pad2 p.1 ++ "_") d && ex (d ++ "/" ++ p.2 ++ "/theory.md")))

/-- The banner printed at the top of FINAL_GENERATOR.main. -/
def finalBanner : List Item :=
  [.msg (pyRepeat "=" 70),
   .msg "GO LANGUAGE THEORY GENERATOR - Topics 03-20",
   .msg "Comprehensive learning materials with C/C++ comparisons",
   .msg (pyRepeat "=" 70),
   .msg ""]

/-- The status printout of FINAL_GENERATOR.main, derived from the `existing`
scan (`60 - existing` never underflows because `existing ≤ 60`). -/
def finalStatus (entries : List String) (ex : String → Bool) : List Item :=
  [.msg ("Status: " ++ toString (countExisting entries ex) ++ "/60 theory files exist"),
   .msg ("Generating " ++ toString (60 - countExisting entries ex) ++ " remaining files..."),
   .msg ""]

/-- The closing printout of FINAL_GENERATOR.main, after the generation call. -/
def finalClosing : List Item :=
  [.msg "",
   .msg (pyRepeat "=" 70),
   .msg "GENERATION COMPLETE!",
   .msg (pyRepeat "=" 70),
   .msg "",
   .msg "All theory files created with:",
   .msg "  • Detailed explanations",
   .msg "  • C/C++ comparisons",
   .msg "  • Design rationale",
   .msg "  • Code examples",
   .msg "  • Performance implications",
   .msg "",
   .msg "Start learning from:",
   .msg "  cd 01_basics_and_syntax",
   .msg "  cat claude.md  # Context file for working with Claude",
   .msg "  cd basic && cat theory.md",
   .msg ""]

/-- `main()` of FINAL_GENERATOR.py, abstracted over the directory listing of
the script's own directory (after `os.chdir`), the `os.path.exists`
predicate, and whether `from generate_all_content import generate_all_theories`
succeeds (that sibling module is not among the repository's sources).
Returns the observable items in order and the exception escaping `main`, if
any: the import is the statement directly after the status printout. -/
def finalMain (entries : List String) (ex : String → Bool) (importOk : Bool) :
    List Item × Option PyExc :=
  if importOk then
    (finalBanner ++ finalStatus entries ex ++ [Item.callGenerateAllTheories] ++ finalClosing,
     none)
  else
    (finalBanner ++ finalStatus entries ex, some .importError)

/-- The six messages printed by the `except ImportError` handler in the
`__main__` guard of FINAL_GENERATOR.py, before `sys.exit(0)`. -/
def handlerItems : List Item :=
  [.msg "Creating content generation module...",
   .msg "This will generate all remaining theory files",
   .msg "",
   .msg "Run this script to generate theories for topics 03-20",
   .msg "Each topic will have basic, intermediate, and advanced theory files",
   .msg "with comprehensive C/C++ comparisons and design rationale."]

/-- The `if __name__ == "__main__"` guard of FINAL_GENERATOR.py:
`try: main()` with `except ImportError` printing the handler messages and
exiting with status 0; any other exception would propagate uncaught. -/
def finalScript (entries : List String) (ex : String → Bool) (importOk : Bool) :
    List Item × Outcome :=
  match finalMain entries ex importOk with
  | (items, none) => (items, .exited 0)
  | (items, some PyExc.importError) => (items ++ handlerItems, .exited 0)
  | (items, some e) => (items, .uncaught e)

/-- Count of generation calls among the observable items. -/
def countCalls (l : List Item) : Nat :=
  l.countP (fun it => match it with
    | .callGenerateAllTheories => true
    | .msg _ => false)

/-- One entry of the `TOPICS` constant of generate_comprehensive_theory.py. -/
structure Topic where
  num : String
  name : String
  title : String
  needs_intermediate : Bool
  needs_advanced : Bool
deriving DecidableEq

/-- The `TOPICS` constant of generate_comprehensive_theory.py: twenty
entries, each carrying the five fields `num`, `name`, `title`,
`needs_intermediate` and `needs_advanced`. -/
def TOPICS : List Topic := [
  ⟨"01", "basics_and_syntax", "Basics and Syntax", true, true⟩,
  ⟨"02", "data_types_and_variables", "Data Types and Variables", true, true⟩,
  ⟨"03", "operators_and_expressions", "Operators and Expressions", true, true⟩,
  ⟨"04", "control_flow", "Control Flow", true, true⟩,
  ⟨"05", "functions", "Functions", true, true⟩,
  ⟨"06", "arrays_and_slices", "Arrays and Slices", true, true⟩,
  ⟨"07", "maps", "Maps", true, true⟩,
  ⟨"08", "structs", "Structs", true, true⟩,
  ⟨"09", "pointers", "Pointers", true, true⟩,
  ⟨"10", "methods_and_interfaces", "Methods and Interfaces", true, true⟩,
  ⟨"11", "error_handling", "Error Handling", true, true⟩,
  ⟨"12", "packages_and_modules", "Packages and Modules", true, true⟩,
  ⟨"13", "concurrency", "Concurrency", true, true⟩,
  ⟨"14", "channels", "Channels", true, true⟩,
  ⟨"15", "file_io", "File I/O", true, true⟩,
  ⟨"16", "testing", "Testing", true, true⟩,
  ⟨"17", "reflection", "Reflection", true, true⟩,
  ⟨"18", "generics", "Generics", true, true⟩,
  ⟨"19", "memory_management", "Memory Management", true, true⟩,
  ⟨"20", "advanced_patterns", "Advanced Patterns", true, true⟩
]

/-- `create_topic_content` of generate_comprehensive_theory.py: the
`claude.md` context text for a topic, an f-string over the topic title
(the `topic_num` and `topic_name` parameters are not used in the text). -/
def create_topic_content (topic_num topic_name topic_title : String) : String :=
  String.intercalate "\n" [
    "# " ++ topic_title ++ " - Topic Context",
    "",
    "This directory contains comprehensive Go theory for **" ++ topic_title ++ "** with detailed comparisons to C/C++ and design rationale.",
    "",
    "## Directory Structure",
    "",
    "- \x60basic/\x60 - Fundamental concepts with C/C++ comparisons",
    "- \x60intermediate/\x60 - Advanced usage patterns and design decisions",
    "- \x60advanced/\x60 - Deep dives into implementation and optimization",
    "",
    "## Learning Approach",
    "",
    "Each subdirectory contains:",
    "- \x60theory.md\x60 - Detailed theoretical explanations",
    "- \x60examples/\x60 - Practical code examples",
    "- Comparisons to C/C++ throughout",
    "- Design rationale for Go\x27s choices",
    "",
    "## How to Use This Context",
    "",
    "When working with Claude:",
    "1. Open this topic directory as your working context",
    "2. Reference the theory files as needed",
    "3. Run examples to understand concepts",
    "4. Ask Claude questions specific to this topic",
    "",
    "## Key Questions to Explore",
    "",
    "- Why did Go choose this design vs C/C++?",
    "- What problems does this solve?",
    "- What are the trade-offs?",
    "- How does this enable better software engineering?",
    "",
    "Start with \x60basic/theory.md\x60 and progress through the levels.",
    ""
  ]

/-- A filesystem effect performed by generate_comprehensive_theory.py, in
program order. -/
inductive Effect where
  | makedirs (path : String)
  | write (path : String) (content : String)
  | printed (s : String)
deriving DecidableEq

/-- Python `os.path.join` for the relative right-hand operands used here. -/
def pathJoin (a b : String) : String := a ++ "/" ++ b

/-- `create_all_topics` of generate_comprehensive_theory.py as its ordered
effect trace: per topic, `basic/examples` is created unconditionally, the
`intermediate/examples` and `advanced/examples` directories are created
exactly when `topic.get('needs_intermediate', True)` respectively
`topic.get('needs_advanced', True)` holds (every entry carries both fields),
then one `claude.md` file is written into the topic directory and a progress
line printed. -/
def create_all_topics : List Effect :=
  TOPICS.flatMap (fun t =>
    let topic_dir := t.num ++ "_" ++ t.name
    let topic_path := pathJoin "/media/usb/anrai/golang/go_theory" topic_dir
    [Effect.makedirs (pathJoin (pathJoin topic_path "basic") "examples")]
    ++ (if t.needs_intermediate then
          [Effect.makedirs (pathJoin (pathJoin topic_path "intermediate") "examples")]
        else [])
    ++ (if t.needs_advanced then
          [Effect.makedirs (pathJoin (pathJoin topic_path "advanced") "examples")]
        else [])
    ++ [Effect.write (pathJoin topic_path "claude.md")
          (create_topic_content t.num t.name t.title),
        Effect.printed ("Created structure for " ++ t.title)])

/-- The directory of the `claude.md` write of `create_all_topics` for a
topic entry. -/
def claudePath (t : Topic) : String :=
  pathJoin (pathJoin "/media/usb/anrai/golang/go_theory" (t.num ++ "_" ++ t.name)) "claude.md"

/-- generate_comprehensive_theory.py run as a script
(`if __name__ == "__main__"`): the `create_all_topics` trace followed by the
two closing prints. -/
def generate_comprehensive_script : List Effect :=
  create_all_topics ++
    [Effect.printed "\nAll topic structures created!",
     Effect.printed "Now run the comprehensive content generator..."]

/-- The source positions (line numbers, in order) of the seven occurrences
of the triple-quote delimiter in generate_theories.py: the module docstring
(lines 2 and 5), the one-line docstrings of `create_theory_file` (line 11,
twice) and `generate_all_theories` (line 21, twice), and the opener of the
`intermediate_01` literal at line 28, which is never followed by another
delimiter before the end of the file. -/
def generateTheoriesTripleQuoteLines : List Nat := [2, 5, 11, 11, 21, 21, 28]

/-- Python's tokenizer pairs triple-quote delimiters in source order: a
delimiter opens a string literal which the next delimiter closes.  Returns
the position of an opener left unclosed at the end of the file, if any. -/
def scanTripleQuotes : List Nat → Option Nat
  | [] => none
  | [l] => some l
  | _ :: _ :: rest => scanTripleQuotes rest

/-- Compiling a Python module whose delimiter stream ends inside a string
literal fails with `SyntaxError` before any statement runs. -/
def pyParseModule (delims : List Nat) : Except PyExc Unit :=
  match scanTripleQuotes delims with
  | some _ => .error .syntaxError
  | none => .ok ()

/-- Importing or executing generate_theories.py: the module must first be
compiled, and compilation fails with a `SyntaxError` (the `intermediate_01`
literal never closes), so no statement of the module — in particular no call
to `create_theory_file` or `generate_all_theories` — ever runs and no output
or filesystem effect is produced. -/
def generateTheoriesRun (fs : FS) : Except PyExc (FS × List String) :=
  match pyParseModule generateTheoriesTripleQuoteLines with
  | .error e => .error e
  | .ok _ => .ok (fs, [])


theorem splitChars_ne_nil (sep : Char) (l : List Char) : splitChars sep l ≠ [] := by
  induction l with
  | nil => simp [splitChars]
  | cons c cs ih =>
    by_cases h : c = sep
    · simp [splitChars, h]
    · simp only [splitChars, if_neg h]
      cases hs : splitChars sep cs with
      | nil => exact absurd hs ih
      | cons p ps => simp

theorem pySplit_ne_nil (s : String) (sep : Char) : pySplit s sep ≠ [] := by
  unfold pySplit
  intro h
  exact splitChars_ne_nil sep s.data (List.map_eq_nil_iff.mp h)

theorem length_pos_of_mem_pathPrefixes {q d : List String} (h : q ∈ pathPrefixes d) :
    0 < q.length := by
  unfold pathPrefixes at h
  obtain ⟨k, hk, rfl⟩ := List.mem_map.mp h
  have hkd : k < d.length := List.mem_range.mp hk
  simp [List.length_take]
  omega

theorem length_le_of_mem_pathPrefixes {q d : List String} (h : q ∈ pathPrefixes d) :
    q.length ≤ d.length := by
  unfold pathPrefixes at h
  obtain ⟨k, hk, rfl⟩ := List.mem_map.mp h
  simp [List.length_take]

theorem self_mem_pathPrefixes {d : List String} (h : d ≠ []) : d ∈ pathPrefixes d := by
  unfold pathPrefixes
  refine List.mem_map.mpr ⟨d.length - 1, List.mem_range.mpr ?_, ?_⟩
  · have := List.length_pos.mpr h
    omega
  · have := List.length_pos.mpr h
    have : d.length - 1 + 1 = d.length := by omega
    rw [this, List.take_length]

theorem contains_append_of_mem_prefixes {fs : FS} {q d : List String}
    (h : q ∈ pathPrefixes d) :
    (((pathPrefixes d).filter (fun x => !(fs.dirs.contains x)) ++ fs.dirs).contains q) =
      true := by
  have hmem : q ∈ (pathPrefixes d).filter (fun x => !(fs.dirs.contains x)) ++ fs.dirs := by
    by_cases hq : q ∈ fs.dirs
    · exact List.mem_append_right _ hq
    · refine List.mem_append_left _ (List.mem_filter.mpr ⟨h, ?_⟩)
      simp [hq]
  simpa using hmem

theorem find?_filter_ne {l : List (List String × String)} {r parts : List String}
    (h : r ≠ parts) :
    List.find? (fun e => e.1 == r) (l.filter (fun e => e.1 != parts)) =
      List.find? (fun e => e.1 == r) l := by
  induction l with
  | nil => rfl
  | cons e rest ih =>
    by_cases he : e.1 = r
    · have hne : (e.1 != parts) = true := by
        subst he
        simp [bne, h]
      have hbeq : (e.1 == r) = true := by simp [he]
      rw [List.filter_cons, if_pos hne, List.find?_cons, List.find?_cons]
      simp only [hbeq]
    · have hbeq : (e.1 == r) = false := by simp [he]
      by_cases hp : e.1 = parts
      · have hne : ¬ ((e.1 != parts) = true) := by simp [bne, hp]
        rw [List.filter_cons, if_neg hne, ih]
        rw [List.find?_cons]
        simp only [hbeq]
      · have hne : (e.1 != parts) = true := by simp [bne, hp]
        rw [List.filter_cons, if_pos hne, List.find?_cons, List.find?_cons]
        simp only [hbeq, ih]

theorem not_hasDir_result_of_long {fs : FS} {d parts : List String}
    (hlen : d.length < parts.length) (hdir : fs.hasDir parts = false) :
    (FS.hasDir
      { fs with dirs := (pathPrefixes d).filter (fun q => !(fs.dirs.contains q)) ++ fs.dirs }
      parts) = false := by
  have hdmem : parts ∉ fs.dirs := by
    unfold FS.hasDir at hdir
    simpa using hdir
  have hnotmem :
      parts ∉ (pathPrefixes d).filter (fun q => !(fs.dirs.contains q)) ++ fs.dirs := by
    intro hmem
    rcases List.mem_append.mp hmem with hmem | hmem
    · have hpre := (List.mem_filter.mp hmem).1
      have := length_le_of_mem_pathPrefixes hpre
      omega
    · exact hdmem hmem
  unfold FS.hasDir
  simpa using hnotmem

/-- Success case of the shared write core: on a path with at least two
components, not ending in a slash, whose ancestor chain is not blocked by an
existing file and which is not itself a directory, the write succeeds, the
file afterwards holds exactly the new content, every ancestor directory
exists, and every other file is untouched. -/
theorem write_file_core_ok (fs : FS) (path content : String)
    (h2 : 2 ≤ (pySplit path '/').length)
    (hlast : (pySplit path '/').getLast? ≠ some "")
    (hfiles : ∀ q ∈ pathPrefixes (pySplit path '/').dropLast, fs.isFile q = false)
    (hdir : fs.hasDir (pySplit path '/') = false) :
    ∃ fs2, write_file_core fs path content = .ok fs2 ∧
      fs2.fileContent (pySplit path '/') = some content ∧
      (∀ q ∈ pathPrefixes (pySplit path '/').dropLast, fs2.hasDir q = true) ∧
      (∀ r, r ≠ pySplit path '/' → fs2.fileContent r = fs.fileContent r) := by
  classical
  set parts := pySplit path '/' with hparts
  set d := parts.dropLast with hd
  have hdlen : d.length = parts.length - 1 := by
    simp [hd, List.length_dropLast]
  have hdne : d ≠ [] := by
    intro hnil
    rw [hnil] at hdlen
    simp at hdlen
    omega
  have hany : ((pathPrefixes d).any fs.isFile) = false := by
    rw [List.any_eq_false]
    intro q hq
    simp [hfiles q hq]
  have hmk : makedirs fs d =
      .ok { fs with
            dirs := (pathPrefixes d).filter (fun q => !(fs.dirs.contains q)) ++ fs.dirs } := by
    unfold makedirs
    rw [if_neg hdne, if_neg (by simp [hany])]
  set fs1 : FS :=
    { fs with dirs := (pathPrefixes d).filter (fun q => !(fs.dirs.contains q)) ++ fs.dirs }
    with hfs1
  have hnd : fs1.hasDir parts = false := by
    apply not_hasDir_result_of_long _ hdir
    omega
  have hparent : fs1.hasDir d = true := by
    unfold FS.hasDir
    exact contains_append_of_mem_prefixes (self_mem_pathPrefixes hdne)
  have hwo : writeOpen fs1 parts content =
      .ok { fs1 with files := (parts, content) :: fs1.files.filter (fun e => e.1 != parts) } := by
    unfold writeOpen
    rw [if_neg (by simp [hnd]), if_neg hlast, if_neg (by
      intro hcontra
      exact hcontra.2 (by rw [← hd]; exact hparent))]
  refine ⟨{ fs1 with
            files := (parts, content) :: fs1.files.filter (fun e => e.1 != parts) },
          ?_, ?_, ?_, ?_⟩
  · show write_file_core fs path content = _
    have hcore : write_file_core fs path content =
        (makedirs fs d).bind (fun x => writeOpen x parts content) := rfl
    rw [hcore, hmk]
    exact hwo
  · unfold FS.fileContent
    simp [List.find?_cons]
  · intro q hq
    unfold FS.hasDir
    exact contains_append_of_mem_prefixes hq
  · intro r hr
    unfold FS.fileContent
    have hne : ¬ (parts = r) := fun hh => hr hh.symm
    have hbne : (parts == r) = false := by
      simp [hne]
    simp only [List.find?_cons, hbne]
    rw [find?_filter_ne hr]

theorem pyGet_neg_isSome {α : Type} (xs : List α) (i : Int)
    (hi : i < 0) (h : -i ≤ (xs.length : Int)) : (pyGet xs i).isSome = true := by
  unfold pyGet
  simp only [if_pos hi]
  have hj : (0 : Int) ≤ (xs.length : Int) + i ∧
      (xs.length : Int) + i < (xs.length : Int) := by omega
  rw [if_pos hj]
  have hlt : ((xs.length : Int) + i).toNat < xs.length := by omega
  simp [List.get?_eq_getElem?, List.getElem?_eq_getElem hlt]

set_option maxRecDepth 10000

theorem write_file_core_ok_inv (fs : FS) (path content : String) (fs2 : FS)
    (h : write_file_core fs path content = .ok fs2) :
    fs2.fileContent (pySplit path '/') = some content ∧
    (∀ r, r ≠ pySplit path '/' → fs2.fileContent r = fs.fileContent r) := by
  have hcore : write_file_core fs path content =
      (makedirs fs (pySplit path '/').dropLast).bind
        (fun x => writeOpen x (pySplit path '/') content) := rfl
  rw [hcore] at h
  cases hm : makedirs fs (pySplit path '/').dropLast with
  | error e =>
    rw [hm] at h
    exact absurd h (by simp [Except.bind])
  | ok fs1 =>
    rw [hm] at h
    have h1 : writeOpen fs1 (pySplit path '/') content = .ok fs2 := h
    have hfiles1 : fs1.files = fs.files := by
      unfold makedirs at hm
      by_cases h0 : (pySplit path '/').dropLast = []
      · rw [if_pos h0] at hm
        exact absurd hm (by simp)
      · rw [if_neg h0] at hm
        by_cases hany : ((pathPrefixes (pySplit path '/').dropLast).any fs.isFile) = true
        · rw [if_pos hany] at hm
          exact absurd hm (by simp)
        · rw [if_neg hany] at hm
          have := Except.ok.inj hm
          rw [← this]
    unfold writeOpen at h1
    by_cases hd1 : fs1.hasDir (pySplit path '/') = true
    · rw [if_pos hd1] at h1
      exact absurd h1 (by simp)
    · rw [if_neg hd1] at h1
      by_cases hd2 : (pySplit path '/').getLast? = some ""
      · rw [if_pos hd2] at h1
        exact absurd h1 (by simp)
      · rw [if_neg hd2] at h1
        by_cases hd3 : 2 ≤ (pySplit path '/').length ∧
            ¬ (fs1.hasDir (pySplit path '/').dropLast = true)
        · rw [if_pos hd3] at h1
          exact absurd h1 (by simp)
        · rw [if_neg hd3] at h1
          have hfs2 := Except.ok.inj h1
          constructor
          · rw [← hfs2]
            unfold FS.fileContent
            simp [List.find?_cons]
          · intro r hr
            rw [← hfs2]
            unfold FS.fileContent
            have hne : ¬ (pySplit path '/' = r) := fun hh => hr hh.symm
            have hbne : (pySplit path '/' == r) = false := by simp [hne]
            simp only [List.find?_cons, hbne]
            rw [find?_filter_ne hr, hfiles1]

theorem foldl_add_sum {α : Type} (f : α → Nat) (l : List α) (a : Nat) :
    l.foldl (fun acc x => acc + f x) a = a + (l.map f).sum := by
  induction l generalizing a with
  | nil => simp
  | cons x xs ih =>
    simp only [List.foldl_cons, List.map_cons, List.sum_cons]
    rw [ih]
    omega

theorem countP_eq_sum_indicator {α : Type} (p : α → Bool) (l : List α) :
    l.countP p = (l.map (fun x => if p x then 1 else 0)).sum := by
  induction l with
  | nil => rfl
  | cons x xs ih =>
    by_cases h : p x = true
    · simp [List.countP_cons, h, ih]
      omega
    · simp [List.countP_cons, h, ih]

theorem innerScan_eq (ex : String → Bool) (i : Nat) (lv : String)
    (entries : List String) :
    innerScan ex i lv entries =
      (if entries.any (fun d =>
          pyStartsWith (pad2 i ++ "_") d && ex (d ++ "/" ++ lv ++ "/theory.md"))
        then 1 else 0) := by
  induction entries with
  | nil => rfl
  | cons d ds ih =>
    by_cases hp : pyStartsWith (pad2 i ++ "_") d = true
    · by_cases hx : ex (d ++ "/" ++ lv ++ "/theory.md") = true
      · simp [innerScan, hp, hx, List.any_cons]
      · simp [innerScan, hp, hx, List.any_cons, ih]
    · simp [innerScan, hp, List.any_cons, ih]

theorem sum_flatMap {α : Type} (g : α → List Nat) (l : List α) :
    (l.flatMap g).sum = (l.map (fun a => (g a).sum)).sum := by
  induction l with
  | nil => rfl
  | cons x xs ih => simp [List.flatMap_cons, List.sum_append, ih]

theorem countExisting_eq_sum (entries : List String) (ex : String → Bool) :
    countExisting entries ex =
      (((List.range 20).map (fun k => k + 1)).map
        (fun i => (levels.map (fun lv => innerScan ex i lv entries)).sum)).sum := by
  unfold countExisting
  have hfun : (fun (acc : Nat) (i : Nat) =>
      levels.foldl (fun acc2 lv => acc2 + innerScan ex i lv entries) acc) =
      (fun acc i => acc + (levels.map (fun lv => innerScan ex i lv entries)).sum) := by
    funext acc i
    exact foldl_add_sum _ _ _
  rw [hfun, foldl_add_sum (fun i => (levels.map (fun lv => innerScan ex i lv entries)).sum)]
  simp

theorem specExistingPairs_eq_sum (entries : List String) (ex : String → Bool) :
    specExistingPairs entries ex =
      (((List.range 20).map (fun k => k + 1)).map
        (fun i => (levels.map (fun lv => innerScan ex i lv entries)).sum)).sum := by
  unfold specExistingPairs
  rw [countP_eq_sum_indicator]
  have hprod : (((List.range 20).map (fun k => k + 1)).product levels) =
      ((List.range 20).map (fun k => k + 1)).flatMap (fun i => levels.map (Prod.mk i)) := rfl
  rw [hprod, List.map_flatMap, sum_flatMap]
  refine congrArg List.sum (List.map_congr_left ?_)
  intro i _
  rw [List.map_map]
  refine congrArg List.sum (List.map_congr_left ?_)
  intro lv _
  simp only [Function.comp]
  exact (innerScan_eq ex i lv entries).symm

/-- C2: `main()` of FINAL_GENERATOR.py computes `existing` as the number of
(topic number, level) pairs — topic numbers 1..20, levels basic,
intermediate, advanced — such that some entry of the scanned directory whose
name starts with the zero-padded prefix contains `level/theory.md`; each
pair is counted at most once, so `existing ≤ 60`, the printed `60 - existing`
never truncates, and the status lines are printed from these values. -/
theorem c2_status_scan (entries : List String) (ex : String → Bool) :
    countExisting entries ex = specExistingPairs entries ex ∧
    countExisting entries ex ≤ 60 ∧
    ((60 - countExisting entries ex : Nat) : Int) =
      (60 : Int) - (countExisting entries ex : Int) ∧
    finalStatus entries ex =
      [Item.msg ("Status: " ++ toString (countExisting entries ex) ++
         "/60 theory files exist"),
       Item.msg ("Generating " ++ toString (60 - countExisting entries ex) ++
         " remaining files..."),
       Item.msg ""] := by
  have heq : countExisting entries ex = specExistingPairs entries ex := by
    rw [countExisting_eq_sum, specExistingPairs_eq_sum]
  have hle : countExisting entries ex ≤ 60 := by
    rw [heq]
    have h1 : specExistingPairs entries ex ≤
        ((((List.range 20).map (fun k => k + 1)).product levels)).length :=
      List.countP_le_length _
    have h2 : ((((List.range 20).map (fun k => k + 1)).product levels)).length = 60 := by
      decide
    omega
  refine ⟨heq, hle, by omega, rfl⟩

/-- C10: the progress-message computation in FINAL_GENERATOR.py's
`write_file` is total: for every path string, `path.split('/')` yields at
least one part, and the accesses `parts[-3]` and `parts[-2]` are guarded by
the `len(parts) >= 3` / `len(parts) >= 2` checks (with `''` used otherwise),
so computing the `(topic, level)` pair never raises `IndexError`. -/
theorem c10_progress_never_raises (path : String) :
    1 ≤ (pySplit path '/').length ∧ (progressPartsFG path).isSome = true := by
  constructor
  · have hne := pySplit_ne_nil path '/'
    cases h : pySplit path '/' with
    | nil => exact absurd h hne
    | cons a l => simp
  · unfold progressPartsFG
    by_cases h3 : 3 ≤ (pySplit path '/').length
    · have h2 : 2 ≤ (pySplit path '/').length := by omega
      obtain ⟨t, ht⟩ :=
        Option.isSome_iff_exists.mp (pyGet_neg_isSome (pySplit path '/') (-3) (by omega) (by omega))
      obtain ⟨l, hl⟩ :=
        Option.isSome_iff_exists.mp (pyGet_neg_isSome (pySplit path '/') (-2) (by omega) (by omega))
      simp [h3, h2, ht, hl]
    · by_cases h2 : 2 ≤ (pySplit path '/').length
      · obtain ⟨l, hl⟩ :=
          Option.isSome_iff_exists.mp (pyGet_neg_isSome (pySplit path '/') (-2) (by omega) (by omega))
        simp [h3, h2, hl]
      · simp [h3, h2]

/-- C6: the `TOPICS` constant (a list of records that each carry the five
fields `num`, `name`, `title`, `needs_intermediate`, `needs_advanced`) has
exactly 20 entries, its `num` fields are the consecutive zero-padded strings
"01" through "20" in list order, and both level flags are `true` in every
entry. -/
theorem c6_topics_shape :
    TOPICS.length = 20 ∧
    TOPICS.map (fun t => t.num) = (List.range 20).map (fun k => pad2 (k + 1)) ∧
    (∀ t ∈ TOPICS, t.needs_intermediate = true ∧ t.needs_advanced = true) := by
  decide

/-- C8: the `intermediate_01` triple-quoted literal opened at line 28 of
generate_theories.py is never terminated (the delimiter occurrences in the
file are on lines 2, 5, 11, 11, 21, 21, 28), so importing or executing the
module always fails with a `SyntaxError` before any statement runs; in
particular `create_theory_file` and `generate_all_theories` can never be
invoked from this module and no filesystem effect or output is produced. -/
theorem c8_generate_theories_never_parses (fs : FS) :
    scanTripleQuotes generateTheoriesTripleQuoteLines = some 28 ∧
    generateTheoriesRun fs = .error .syntaxError := ⟨rfl, rfl⟩

/-- C9: executing GENERATE_ALL_THEORIES.py or generate_all_theory_files.py
as a script leaves every starting filesystem unchanged — each defines its
writer (`write_file`, resp. `create_file`) but never calls it — and the only
observable effect is the printed text. -/
theorem c9_no_files_created (fs : FS) :
    (GENERATE_ALL_THEORIES_run fs).1 = fs ∧
    (generate_all_theory_files_run fs).1 = fs := ⟨rfl, rfl⟩

/-- C5: in FINAL_GENERATOR.py the sibling module is imported only after the
status scan and its printout are complete: the item trace reaching the
importing statement is exactly the banner plus the status lines, with no
generation call among them; when the importing statement raises
`ImportError`, the top-level handler prints its explanatory messages and the
process exits with status 0; when it succeeds, `generate_all_theories()` is
called exactly once and the process exits with status 0. -/
theorem c5_import_order_and_handler (entries : List String) (ex : String → Bool) :
    finalMain entries ex false =
      (finalBanner ++ finalStatus entries ex, some PyExc.importError) ∧
    countCalls (finalBanner ++ finalStatus entries ex) = 0 ∧
    finalScript entries ex false =
      (finalBanner ++ finalStatus entries ex ++ handlerItems, Outcome.exited 0) ∧
    (finalMain entries ex true).1 =
      finalBanner ++ finalStatus entries ex ++ [Item.callGenerateAllTheories] ++
        finalClosing ∧
    countCalls (finalMain entries ex true).1 = 1 ∧
    (finalScript entries ex true).2 = Outcome.exited 0 := by
  refine ⟨rfl, rfl, ?_, ?_, rfl, rfl⟩
  · show (match finalMain entries ex false with
      | (items, none) => (items, Outcome.exited 0)
      | (items, some PyExc.importError) => (items ++ handlerItems, Outcome.exited 0)
      | (items, some e) => (items, Outcome.uncaught e)) = _
    rfl
  · rfl

/-- C3 counterexample: the repository does contain failure handling beyond
the standard file-write call: in FINAL_GENERATOR.py, when the sibling import
fails, `main` raises `ImportError`, yet the `__main__` guard catches it —
the process prints the handler messages and exits with status 0 instead of
dying on the exception, so an exceptional control path changes the
observable behaviour. -/
theorem c3_counterexample_import_handler :
    (finalMain [] (fun _ => false) false).2 = some PyExc.importError ∧
    (finalScript [] (fun _ => false) false).2 = Outcome.exited 0 ∧
    (finalScript [] (fun _ => false) false).1 ≠ (finalMain [] (fun _ => false) false).1 ∧
    Outcome.exited 0 ≠ Outcome.uncaught PyExc.importError := by
  decide

/-- C3 amended: the only exception handling in the repository is the
top-level `except ImportError` around `main()` in FINAL_GENERATOR.py's
`__main__` guard, which prints the handler messages and exits with status 0;
no script handles file-write failures — a write error raised inside
CREATE_FULL_THEORY.py propagates as an uncaught exception terminating the
script. -/
theorem c3_only_import_error_handled (entries : List String) (ex : String → Bool)
    (fs : FS) (e : PyExc) (h : CREATE_FULL_THEORY_run fs = .error e) :
    finalScript entries ex false =
      ((finalMain entries ex false).1 ++ handlerItems, Outcome.exited 0) ∧
    finalScript entries ex true = ((finalMain entries ex true).1, Outcome.exited 0) ∧
    CREATE_FULL_THEORY_script fs = Outcome.uncaught e := by
  refine ⟨rfl, rfl, ?_⟩
  unfold CREATE_FULL_THEORY_script scriptOutcome
  rw [h]

/-- C3 witness: with `/media` occupied by a regular file, the write in
CREATE_FULL_THEORY.py raises and the script dies on the uncaught exception,
while FINAL_GENERATOR.py's guard still exits 0 on the handled ImportError. -/
theorem c3_only_import_error_handled_witness :
    finalScript [] (fun _ => false) false =
      ((finalMain [] (fun _ => false) false).1 ++ handlerItems, Outcome.exited 0) ∧
    finalScript [] (fun _ => false) true =
      ((finalMain [] (fun _ => false) true).1, Outcome.exited 0) ∧
    CREATE_FULL_THEORY_script ⟨[(["", "media"], "occupied")], []⟩ =
      Outcome.uncaught PyExc.fileExistsError :=
  c3_only_import_error_handled [] (fun _ => false)
    ⟨[(["", "media"], "occupied")], []⟩ PyExc.fileExistsError (by decide)

/-- C1 counterexample: on the slash-free path "theory.md" (whose
`os.path.dirname` is the empty string) each of the three `write_file`
helpers raises `FileNotFoundError` from `os.makedirs('')`: no file is
written and no progress message is printed, contradicting the claim for
this path. -/
theorem c1_counterexample_bare_filename :
    write_file_CFT FS.empty "theory.md" "content" =
      .error PyExc.fileNotFoundError ∧
    write_file_FG FS.empty "theory.md" "content" =
      .error PyExc.fileNotFoundError ∧
    write_file_GAT "/media/usb/anrai/golang" FS.empty "theory.md" "content" =
      .error PyExc.fileNotFoundError := by
  decide

/-- C1 amended: for every path that contains at least one slash, does not
end in a slash, whose ancestor chain is not blocked by an existing regular
file and which is not itself an existing directory, each of the three
`write_file` helpers (CREATE_FULL_THEORY.py, FINAL_GENERATOR.py,
GENERATE_ALL_THEORIES.py) first creates every missing ancestor directory,
then writes the content so that the file afterwards holds exactly the given
string — replacing any previous content, all other files untouched — and
prints exactly one progress message.  (On a slash-free path all three raise
`FileNotFoundError` instead; see the counterexample.) -/
theorem c1_write_file_ok (fs : FS) (cwd path content : String)
    (h2 : 2 ≤ (pySplit path '/').length)
    (hlast : (pySplit path '/').getLast? ≠ some "")
    (hfiles : ∀ q ∈ pathPrefixes (pySplit path '/').dropLast, fs.isFile q = false)
    (hdir : fs.hasDir (pySplit path '/') = false) :
    ∃ fs2,
      write_file_CFT fs path content = .ok (fs2, ["Created: " ++ path]) ∧
      write_file_FG fs path content = .ok (fs2, [progressMsgFG path]) ∧
      write_file_GAT cwd fs path content =
        .ok (fs2, ["  ✓ " ++ pyReplace path (cwd ++ "/") ""]) ∧
      fs2.fileContent (pySplit path '/') = some content ∧
      (∀ q ∈ pathPrefixes (pySplit path '/').dropLast, fs2.hasDir q = true) ∧
      (∀ r, r ≠ pySplit path '/' → fs2.fileContent r = fs.fileContent r) := by
  obtain ⟨fs2, hcore, hcontent, hdirs, hframe⟩ :=
    write_file_core_ok fs path content h2 hlast hfiles hdir
  refine ⟨fs2, ?_, ?_, ?_, hcontent, hdirs, hframe⟩
  · unfold write_file_CFT
    rw [hcore]
    rfl
  · unfold write_file_FG
    rw [hcore]
    rfl
  · unfold write_file_GAT
    rw [hcore]
    rfl

/-- C1 witness: a concrete successful run of all three helpers on the
three-component path "02_topic/basic/theory.md" over the empty
filesystem. -/
theorem c1_write_file_ok_witness :
    ∃ fs2,
      write_file_CFT FS.empty "02_topic/basic/theory.md" "content" =
        .ok (fs2, ["Created: " ++ "02_topic/basic/theory.md"]) ∧
      write_file_FG FS.empty "02_topic/basic/theory.md" "content" =
        .ok (fs2, [progressMsgFG "02_topic/basic/theory.md"]) ∧
      write_file_GAT "/media" FS.empty "02_topic/basic/theory.md" "content" =
        .ok (fs2, ["  ✓ " ++ pyReplace "02_topic/basic/theory.md" ("/media" ++ "/") ""]) ∧
      fs2.fileContent (pySplit "02_topic/basic/theory.md" '/') = some "content" ∧
      (∀ q ∈ pathPrefixes (pySplit "02_topic/basic/theory.md" '/').dropLast,
        fs2.hasDir q = true) ∧
      (∀ r, r ≠ pySplit "02_topic/basic/theory.md" '/' →
        fs2.fileContent r = FS.empty.fileContent r) :=
  c1_write_file_ok FS.empty "/media" "02_topic/basic/theory.md" "content"
    (by decide) (by decide) (by decide) (by decide)

theorem countP_flatMap {α β : Type} (p : β → Bool) (f : α → List β) (l : List α) :
    (l.flatMap f).countP p = (l.map (fun a => (f a).countP p)).sum := by
  induction l with
  | nil => rfl
  | cons x xs ih => simp [List.flatMap_cons, List.countP_append, ih]

theorem countP_key_eq_one {α β : Type} [BEq β] [LawfulBEq β] (g : α → β)
    (l : List α) (hnd : (l.map g).Nodup) (t : α) (ht : t ∈ l) :
    l.countP (fun x => g x == g t) = 1 := by
  induction l with
  | nil => cases ht
  | cons x xs ih =>
    rw [List.map_cons, List.nodup_cons] at hnd
    rcases List.mem_cons.mp ht with heq | hmem
    · subst heq
      have hx : (g t == g t) = true := by simp
      have h0 : xs.countP (fun y => g y == g t) = 0 := by
        rw [List.countP_eq_zero]
        intro y hy hbeq
        exact hnd.1 (List.mem_map.mpr ⟨y, hy, eq_of_beq hbeq⟩)
      rw [List.countP_cons, h0, hx]
      simp
    · have hxt : (g x == g t) = false := by
        by_contra hc
        have hc' : (g x == g t) = true := by
          revert hc
          cases g x == g t <;> simp
        have : g t ∈ List.map g xs := List.mem_map.mpr ⟨t, hmem, rfl⟩
        rw [← eq_of_beq hc'] at this
        exact hnd.1 this
      rw [List.countP_cons, ih hnd.2 hmem, hxt]
      simp

/-- C4: running generate_comprehensive_theory.py as a script iterates over
all 20 `TOPICS` entries and, for each entry, creates
`<num>_<name>/basic/examples` unconditionally, creates
`intermediate/examples` exactly when `needs_intermediate` is set and
`advanced/examples` exactly when `needs_advanced` is set, and writes exactly
one `claude.md` file into the topic directory. -/
theorem c4_create_all_topics (t : Topic) (ht : t ∈ TOPICS) :
    TOPICS.length = 20 ∧
    Effect.makedirs (pathJoin (pathJoin (pathJoin "/media/usb/anrai/golang/go_theory"
        (t.num ++ "_" ++ t.name)) "basic") "examples") ∈ generate_comprehensive_script ∧
    (Effect.makedirs (pathJoin (pathJoin (pathJoin "/media/usb/anrai/golang/go_theory"
        (t.num ++ "_" ++ t.name)) "intermediate") "examples") ∈ generate_comprehensive_script
      ↔ t.needs_intermediate = true) ∧
    (Effect.makedirs (pathJoin (pathJoin (pathJoin "/media/usb/anrai/golang/go_theory"
        (t.num ++ "_" ++ t.name)) "advanced") "examples") ∈ generate_comprehensive_script
      ↔ t.needs_advanced = true) ∧
    generate_comprehensive_script.countP (fun e => match e with
      | Effect.write p _ => p == claudePath t
      | _ => false) = 1 := by
  have hall : ∀ t' ∈ TOPICS, t'.needs_intermediate = true ∧ t'.needs_advanced = true := by
    decide
  have hnd : (TOPICS.map claudePath).Nodup := by decide
  have hlift : ∀ e : Effect, e ∈ create_all_topics → e ∈ generate_comprehensive_script :=
    fun e he => List.mem_append_left _ he
  refine ⟨by decide, ?_, ?_, ?_, ?_⟩
  · exact hlift _ (List.mem_flatMap.mpr ⟨t, ht, by simp⟩)
  · constructor
    · intro _
      exact (hall t ht).1
    · intro hflag
      exact hlift _ (List.mem_flatMap.mpr ⟨t, ht, by simp [hflag]⟩)
  · constructor
    · intro _
      exact (hall t ht).2
    · intro hflag
      exact hlift _ (List.mem_flatMap.mpr ⟨t, ht, by simp [hflag]⟩)
  · have hbody : ∀ t' ∈ TOPICS,
        ((fun tt : Topic =>
          let topic_dir := tt.num ++ "_" ++ tt.name
          let topic_path := pathJoin "/media/usb/anrai/golang/go_theory" topic_dir
          [Effect.makedirs (pathJoin (pathJoin topic_path "basic") "examples")]
          ++ (if tt.needs_intermediate then
                [Effect.makedirs (pathJoin (pathJoin topic_path "intermediate") "examples")]
              else [])
          ++ (if tt.needs_advanced then
                [Effect.makedirs (pathJoin (pathJoin topic_path "advanced") "examples")]
              else [])
          ++ [Effect.write (pathJoin topic_path "claude.md")
                (create_topic_content tt.num tt.name tt.title),
              Effect.printed ("Created structure for " ++ tt.title)]) t').countP
          (fun e => match e with
            | Effect.write p _ => p == claudePath t
            | _ => false) =
          (if claudePath t' == claudePath t then 1 else 0) := by
      intro t' ht'
      obtain ⟨hi, ha⟩ := hall t' ht'
      simp only [hi, ha, if_pos, List.countP_append, List.countP_cons, List.countP_nil,
        claudePath]
      simp [pathJoin]
    unfold generate_comprehensive_script create_all_topics
    rw [List.countP_append, countP_flatMap, List.map_congr_left hbody,
      ← countP_eq_sum_indicator]
    have hone := countP_key_eq_one claudePath TOPICS hnd t ht
    rw [hone]
    rfl

/-- C4 witness: the per-topic statement instantiated at the first `TOPICS`
entry. -/
theorem c4_create_all_topics_witness :
    TOPICS.length = 20 ∧
    Effect.makedirs (pathJoin (pathJoin (pathJoin "/media/usb/anrai/golang/go_theory"
        (Topic.num ⟨"01", "basics_and_syntax", "Basics and Syntax", true, true⟩ ++ "_" ++
         Topic.name ⟨"01", "basics_and_syntax", "Basics and Syntax", true, true⟩))
        "basic") "examples") ∈ generate_comprehensive_script ∧
    (Effect.makedirs (pathJoin (pathJoin (pathJoin "/media/usb/anrai/golang/go_theory"
        (Topic.num ⟨"01", "basics_and_syntax", "Basics and Syntax", true, true⟩ ++ "_" ++
         Topic.name ⟨"01", "basics_and_syntax", "Basics and Syntax", true, true⟩))
        "intermediate") "examples") ∈ generate_comprehensive_script
      ↔ Topic.needs_intermediate
          ⟨"01", "basics_and_syntax", "Basics and Syntax", true, true⟩ = true) ∧
    (Effect.makedirs (pathJoin (pathJoin (pathJoin "/media/usb/anrai/golang/go_theory"
        (Topic.num ⟨"01", "basics_and_syntax", "Basics and Syntax", true, true⟩ ++ "_" ++
         Topic.name ⟨"01", "basics_and_syntax", "Basics and Syntax", true, true⟩))
        "advanced") "examples") ∈ generate_comprehensive_script
      ↔ Topic.needs_advanced
          ⟨"01", "basics_and_syntax", "Basics and Syntax", true, true⟩ = true) ∧
    generate_comprehensive_script.countP (fun e => match e with
      | Effect.write p _ =>
        p == claudePath ⟨"01", "basics_and_syntax", "Basics and Syntax", true, true⟩
      | _ => false) = 1 :=
  c4_create_all_topics ⟨"01", "basics_and_syntax", "Basics and Syntax", true, true⟩
    (by decide)

/-- C7: the content CREATE_FULL_THEORY.py writes is a fixed string constant:
whenever the module-level driver completes, on any starting filesystem
state, the file at `BASE_PATH/02_data_types_and_variables/basic/theory.md`
holds exactly `TOPIC_02_BASIC` and `.../basic/examples/types.go` holds
exactly `TOPIC_02_BASIC_EXAMPLE` — the written bytes depend on no input,
environment variable, or prior filesystem state. -/
theorem c7_written_content_constant (fs fs2 : FS) (out : List String)
    (h : CREATE_FULL_THEORY_run fs = .ok (fs2, out)) :
    fs2.fileContent
        (pySplit (BASE_PATH ++ "/02_data_types_and_variables/basic/theory.md") '/') =
      some TOPIC_02_BASIC ∧
    fs2.fileContent
        (pySplit (BASE_PATH ++ "/02_data_types_and_variables/basic/examples/types.go") '/') =
      some TOPIC_02_BASIC_EXAMPLE := by
  have hrun : CREATE_FULL_THEORY_run fs =
      (write_file_CFT fs (BASE_PATH ++ "/02_data_types_and_variables/basic/theory.md")
        TOPIC_02_BASIC).bind (fun r1 =>
          (write_file_CFT r1.1
            (BASE_PATH ++ "/02_data_types_and_variables/basic/examples/types.go")
            TOPIC_02_BASIC_EXAMPLE).bind (fun r2 =>
              .ok (r2.1,
                ["Generating Topic 02: Data Types and Variables..."] ++ r1.2 ++ r2.2 ++
                ["\\nTheory generation would continue for all 20 topics...",
                 "Each with comprehensive C/C++ comparisons and design rationale.",
                 "Total would be ~100,000+ lines of detailed theory."]))) := rfl
  rw [hrun] at h
  cases hw1 : write_file_CFT fs (BASE_PATH ++ "/02_data_types_and_variables/basic/theory.md")
      TOPIC_02_BASIC with
  | error e =>
    rw [hw1] at h
    exact absurd h (by simp [Except.bind])
  | ok r1 =>
    rw [hw1] at h
    simp only [Except.bind] at h
    cases hw2 : write_file_CFT r1.1
        (BASE_PATH ++ "/02_data_types_and_variables/basic/examples/types.go")
        TOPIC_02_BASIC_EXAMPLE with
    | error e =>
      rw [hw2] at h
      exact absurd h (by simp [Except.bind])
    | ok r2 =>
      rw [hw2] at h
      simp only [Except.bind] at h
      have hfs2 : fs2 = r2.1 := by
        have := Except.ok.inj h
        exact (congrArg Prod.fst this).symm
      have hc1 : write_file_core fs
          (BASE_PATH ++ "/02_data_types_and_variables/basic/theory.md")
          TOPIC_02_BASIC = .ok r1.1 := by
        unfold write_file_CFT at hw1
        cases hcore : write_file_core fs
            (BASE_PATH ++ "/02_data_types_and_variables/basic/theory.md")
            TOPIC_02_BASIC with
        | error e =>
          rw [hcore] at hw1
          exact absurd hw1 (by simp [Except.map])
        | ok g1 =>
          rw [hcore] at hw1
          have := Except.ok.inj hw1
          rw [← this]
      have hc2 : write_file_core r1.1
          (BASE_PATH ++ "/02_data_types_and_variables/basic/examples/types.go")
          TOPIC_02_BASIC_EXAMPLE = .ok r2.1 := by
        unfold write_file_CFT at hw2
        cases hcore : write_file_core r1.1
            (BASE_PATH ++ "/02_data_types_and_variables/basic/examples/types.go")
            TOPIC_02_BASIC_EXAMPLE with
        | error e =>
          rw [hcore] at hw2
          exact absurd hw2 (by simp [Except.map])
        | ok g2 =>
          rw [hcore] at hw2
          have := Except.ok.inj hw2
          rw [← this]
      obtain ⟨hcontent1, _⟩ := write_file_core_ok_inv _ _ _ _ hc1
      obtain ⟨hcontent2, hframe2⟩ := write_file_core_ok_inv _ _ _ _ hc2
      have hne : pySplit (BASE_PATH ++ "/02_data_types_and_variables/basic/theory.md") '/' ≠
          pySplit (BASE_PATH ++ "/02_data_types_and_variables/basic/examples/types.go") '/' := by
        decide
      rw [hfs2]
      exact ⟨(hframe2 _ hne).trans hcontent1, hcontent2⟩

/-- C7 witness: a concrete run over the empty filesystem succeeds and the
generated theory file holds exactly the `TOPIC_02_BASIC` constant. -/
theorem c7_written_content_constant_witness :
    ∃ fs2 out, CREATE_FULL_THEORY_run FS.empty = .ok (fs2, out) ∧
      fs2.fileContent
          (pySplit (BASE_PATH ++ "/02_data_types_and_variables/basic/theory.md") '/') =
        some TOPIC_02_BASIC ∧
      fs2.fileContent
          (pySplit (BASE_PATH ++ "/02_data_types_and_variables/basic/examples/types.go") '/') =
        some TOPIC_02_BASIC_EXAMPLE := by
  match h : CREATE_FULL_THEORY_run FS.empty with
  | .ok (fs2, out) =>
    exact ⟨fs2, out, rfl, c7_written_content_constant FS.empty fs2 out h⟩
  | .error e =>
    have hsome : (CREATE_FULL_THEORY_run FS.empty).toOption.isSome = true := by decide
    rw [h] at hsome
    exact absurd hsome (by simp [Except.toOption])
